import Mathlib

/-!
Shallow embedding of the be-ap-vendors vendor master-data service:
the repository layer (`internal/repository/vendor_repository.go`), the
service layer (`internal/service/vendor_service.go`), and the transport
adapters (`internal/handler/grpc_handler.go`, the HTTP handler).
The relational store is modelled as an in-memory list of rows together
with the documented storage constraints.
-/

namespace Vendors

/-- Error codes of the shared errors package used by the service
(`errors.NotFound`, `errors.AlreadyExists`, `errors.InvalidInput`,
`errors.ErrCodeInternal`). -/
inductive ErrCode
  | notFound
  | alreadyExists
  | invalidInput
  | internal
deriving DecidableEq, Repr

/-- A typed domain error: its code, the resource or field it names, and
its message, mirroring the constructors of the shared errors package. -/
structure Err where
  code : ErrCode
  subject : String
  message : String
deriving DecidableEq, Repr

/-- Go `errors.NotFound(resource, id)`. -/
def errNotFound (resource id : String) : Err := ⟨.notFound, resource, id⟩

/-- Go `errors.AlreadyExists(resource, id)`. -/
def errAlreadyExists (resource id : String) : Err := ⟨.alreadyExists, resource, id⟩

/-- Go `errors.InvalidInput(fieldName, reason)`. -/
def errInvalidInput (fieldName reason : String) : Err := ⟨.invalidInput, fieldName, reason⟩

/-- Go `errors.Wrap(err, errors.ErrCodeInternal, msg)`: the wrapped error's
code is always `ErrCodeInternal`. -/
def errWrapInternal (msg : String) : Err := ⟨.internal, "", msg⟩

/-- The `Vendor` row of `internal/repository/vendor_repository.go`.
Timestamps are modelled as natural numbers assigned by the store. -/
structure Vendor where
  id : String
  entityID : String
  vendorCode : String
  vendorName : String
  legalName : Option String
  vendorType : String
  status : String
  taxID : Option String
  isTaxExempt : Bool
  is1099Vendor : Bool
  email : Option String
  phone : Option String
  fax : Option String
  website : Option String
  addressLine1 : Option String
  addressLine2 : Option String
  city : Option String
  stateProvince : Option String
  postalCode : Option String
  country : String
  paymentTerms : String
  paymentMethod : Option String
  currency : String
  creditLimit : Option Int
  currentBalance : Int
  bankName : Option String
  bankAccountNumber : Option String
  bankRoutingNumber : Option String
  swiftCode : Option String
  iban : Option String
  notes : Option String
  tags : List String
  createdBy : Option String
  createdAt : Nat
  updatedBy : Option String
  updatedAt : Nat
deriving DecidableEq, Repr

/-- The `VendorContact` row of `internal/repository/vendor_repository.go`. -/
structure VendorContact where
  id : String
  vendorID : String
  contactType : String
  firstName : String
  lastName : String
  title : Option String
  email : Option String
  phone : Option String
  mobile : Option String
  isPrimary : Bool
  notes : Option String
  createdAt : Nat
  updatedAt : Nat
deriving DecidableEq, Repr

/-- The relational store backing the vendors service: the `vendors` and
`vendor_contacts` tables, the next store-assigned identifier, and the
store clock used for `NOW()`. -/
structure Store where
  vendors : List Vendor
  contacts : List VendorContact
  nextId : Nat
  now : Nat
deriving DecidableEq, Repr

/-- Per-character case maps, the semantics of Go `strings.ToUpper` and
`strings.ToLower` on each rune, written structurally over the string's
character list. -/
def strUpper (s : String) : String := ⟨s.data.map Char.toUpper⟩

/-- Lower-case counterpart of `strUpper`. -/
def strLower (s : String) : String := ⟨s.data.map Char.toLower⟩

/-- Row predicate for `WHERE id = $1 AND entity_id = $2`. -/
def matchesId (id entityID : String) (v : Vendor) : Bool :=
  v.id == id && v.entityID == entityID

/-- Row predicate for `WHERE vendor_code = $1 AND entity_id = $2`
(SQL string comparison is case-sensitive). -/
def matchesCode (code entityID : String) (v : Vendor) : Bool :=
  v.vendorCode == code && v.entityID == entityID

/-- Go `VendorRepository.GetByID`: `SELECT ... WHERE id = $1 AND entity_id = $2`,
`pgx.ErrNoRows` becomes `none`. -/
def getByID (s : Store) (id entityID : String) : Option Vendor :=
  s.vendors.find? (matchesId id entityID)

/-- Go `VendorRepository.GetByCode`: `SELECT ... WHERE vendor_code = $1 AND
entity_id = $2`. -/
def getByCode (s : Store) (code entityID : String) : Option Vendor :=
  s.vendors.find? (matchesCode code entityID)

/-- The storage check constraints on a vendor row, from the migration
schema `001_initial_schema.sql` staged in the source tree:
`vendors_credit_limit_check CHECK (credit_limit IS NULL OR credit_limit >= 0)`
and `vendors_current_balance_check CHECK (current_balance >= 0)`. -/
def rowSatisfiesChecks (v : Vendor) : Bool :=
  (match v.creditLimit with
   | some l => decide (0 ≤ l)
   | none => true) && decide (0 ≤ v.currentBalance)

/-- The storage uniqueness constraint
`vendors_entity_code_unique UNIQUE (entity_id, vendor_code)` of the
migration schema `001_initial_schema.sql` staged in the source tree:
`true` when inserting `v` would violate it. -/
def insertViolatesUnique (s : Store) (v : Vendor) : Bool :=
  s.vendors.any (fun w => w.entityID == v.entityID && w.vendorCode == v.vendorCode)

/-- Go `VendorRepository.Create`: the `INSERT ... RETURNING id, created_at,
updated_at` statement. The store assigns `id` and both timestamps; any
store error — the uniqueness violation included — is wrapped as
`errors.Wrap(err, errors.ErrCodeInternal, "failed to create vendor")`. -/
def repoCreate (s : Store) (v : Vendor) : Except Err (Vendor × Store) :=
  if insertViolatesUnique s v || !(rowSatisfiesChecks v) then
    .error (errWrapInternal "failed to create vendor")
  else
    let v' := { v with id := toString s.nextId, createdAt := s.now, updatedAt := s.now }
    .ok (v', { s with vendors := s.vendors ++ [v'], nextId := s.nextId + 1 })

/-- Replaces the rows matching `p` by `f` applied to them, as a SQL
`UPDATE ... WHERE p` does. -/
def updateWhere (p : Vendor → Bool) (f : Vendor → Vendor) (l : List Vendor) : List Vendor :=
  l.map (fun w => if p w then f w else w)

/-- The same `vendors_entity_code_unique` constraint of the migration
schema applied to an UPDATE: `true` when rewriting the row with id
`v.id` to carry `(v.entityID, v.vendorCode)` would collide with a
different row. -/
def updateViolatesUnique (s : Store) (v : Vendor) : Bool :=
  s.vendors.any (fun w => w.entityID == v.entityID && w.vendorCode == v.vendorCode && w.id != v.id)

/-- Go `VendorRepository.Update`: the `UPDATE vendors SET vendor_code = $3,
..., updated_at = NOW() WHERE id = $1 AND entity_id = $2` statement.
The SET list covers every mutable column except `current_balance`,
`created_by` and `created_at`; here the caller passes the whole intended
row and the store refreshes `updated_at`. `pgx.ErrNoRows` becomes
`NotFound`; any other store error is wrapped as internal. -/
def repoUpdate (s : Store) (v : Vendor) : Except Err (Vendor × Store) :=
  if s.vendors.any (matchesId v.id v.entityID) then
    if updateViolatesUnique s v || !(rowSatisfiesChecks v) then
      .error (errWrapInternal "failed to update vendor")
    else
      let v' := { v with updatedAt := s.now }
      .ok (v', { s with vendors := updateWhere (matchesId v.id v.entityID) (fun _ => v') s.vendors })
  else .error (errNotFound "vendor" v.id)

/-- Go `VendorRepository.Delete`: `DELETE FROM vendors WHERE id = $1 AND
entity_id = $2`; zero rows affected becomes `NotFound`. -/
def repoDelete (s : Store) (id entityID : String) : Except Err Store :=
  if s.vendors.any (matchesId id entityID) then
    .ok { s with vendors := s.vendors.filter (fun v => !(matchesId id entityID v)) }
  else .error (errNotFound "vendor" id)

/-- The single quote character, used by `fmt.Sprintf` format strings. -/
def squote : String := String.singleton (Char.ofNat 39)

/-- The message `fmt.Sprintf("vendor status is '%s', must be active", status)`. -/
def statusMessage (status : String) : String :=
  "vendor status is " ++ squote ++ status ++ squote ++ ", must be active"

/-- The message `fmt.Sprintf("vendor has exceeded credit limit: balance=%d,
limit=%d", balance, limit)`. -/
def creditMessage (balance limit : Int) : String :=
  "vendor has exceeded credit limit: balance=" ++ toString balance ++
    ", limit=" ++ toString limit

/-- Go `VendorRepository.ValidateVendor`: fetch by `(id, entity_id)`, then
require status `active`, then — only if a credit limit is set — require
`current_balance < credit_limit`. Returns the (valid, reason) pair;
the lookup-failure path returns `(false, "vendor not found")`. -/
def validateVendor (s : Store) (id entityID : String) : Bool × String :=
  match getByID s id entityID with
  | none => (false, "vendor not found")
  | some v =>
    if v.status != "active" then
      (false, statusMessage v.status)
    else
      match v.creditLimit with
      | some l =>
        if l ≤ v.currentBalance then (false, creditMessage v.currentBalance l)
        else (true, "")
      | none => (true, "")

/-- Go `VendorRepository.UpdateBalance`: `UPDATE vendors SET current_balance =
current_balance + $3, updated_at = NOW() WHERE id = $1 AND entity_id = $2`.
The layer does not pre-validate the delta; the store's
`vendors_current_balance_check` constraint (from the migration schema
`001_initial_schema.sql` staged in the source tree) rejects a result
below zero and the repository wraps that store error as internal. A
failed statement leaves the store as it was. -/
def updateBalance (s : Store) (id entityID : String) (amount : Int) : Except Err Store :=
  match getByID s id entityID with
  | none => .error (errNotFound "vendor" id)
  | some v =>
    if v.currentBalance + amount < 0 then
      .error (errWrapInternal "failed to update vendor balance")
    else
      let rows := updateWhere (matchesId id entityID)
        (fun w => { w with currentBalance := w.currentBalance + amount, updatedAt := s.now })
        s.vendors
      .ok { s with vendors := rows }

/-- Go `VendorRepository.GetContacts` row ordering: `ORDER BY is_primary DESC,
first_name, last_name`, as a boolean total preorder on contact rows. -/
def contactOrder (a b : VendorContact) : Bool :=
  if a.isPrimary != b.isPrimary then a.isPrimary
  else if a.firstName != b.firstName then decide (a.firstName < b.firstName)
  else decide (a.lastName ≤ b.lastName)

/-- The `Prop` form of `contactOrder`, for the sort. -/
def ContactOrderR (a b : VendorContact) : Prop := contactOrder a b = true

instance : DecidableRel ContactOrderR := fun a b => by
  unfold ContactOrderR; infer_instance

/-- Go `VendorRepository.GetContacts`: `SELECT ... FROM vendor_contacts WHERE
vendor_id = $1 ORDER BY is_primary DESC, first_name, last_name`. The query
is keyed by `vendor_id` alone; no `entity_id` column is read or compared. -/
def getContacts (s : Store) (vendorID : String) : List VendorContact :=
  (s.contacts.filter (fun c => c.vendorID == vendorID)).insertionSort ContactOrderR

-- ---------------------------------------------------------------------------
-- Service layer (`internal/service/vendor_service.go`)
-- ---------------------------------------------------------------------------

/-- Go `service.CreateVendorRequest`. It carries no status field and no
balance field. -/
structure CreateVendorRequest where
  entityID : String
  vendorCode : String
  vendorName : String
  legalName : Option String
  vendorType : String
  taxID : Option String
  isTaxExempt : Bool
  is1099Vendor : Bool
  email : Option String
  phone : Option String
  fax : Option String
  website : Option String
  addressLine1 : Option String
  addressLine2 : Option String
  city : Option String
  stateProvince : Option String
  postalCode : Option String
  country : String
  paymentTerms : String
  paymentMethod : Option String
  currency : String
  creditLimit : Option Int
  bankName : Option String
  bankAccountNumber : Option String
  bankRoutingNumber : Option String
  swiftCode : Option String
  iban : Option String
  notes : Option String
  tags : List String
  createdBy : String
deriving DecidableEq, Repr

/-- Go `service.UpdateVendorRequest`. It carries a status field but no
`current_balance` field. -/
structure UpdateVendorRequest where
  id : String
  entityID : String
  vendorCode : String
  vendorName : String
  legalName : Option String
  vendorType : String
  status : String
  taxID : Option String
  isTaxExempt : Bool
  is1099Vendor : Bool
  email : Option String
  phone : Option String
  fax : Option String
  website : Option String
  addressLine1 : Option String
  addressLine2 : Option String
  city : Option String
  stateProvince : Option String
  postalCode : Option String
  country : String
  paymentTerms : String
  paymentMethod : Option String
  currency : String
  creditLimit : Option Int
  bankName : Option String
  bankAccountNumber : Option String
  bankRoutingNumber : Option String
  swiftCode : Option String
  iban : Option String
  notes : Option String
  tags : List String
  updatedBy : String
deriving DecidableEq, Repr

/-- The fixed vendor-type enumeration checked by the service layer. -/
def validVendorTypes : List String :=
  ["supplier", "contractor", "service_provider", "consultant", "utility"]

/-- The vendor row `VendorService.CreateVendor` builds after its checks
pass: code/country/currency upper-cased, type lower-cased, status forced
to `pending_approval`, balance forced to 0. Store-assigned fields are
placeholders overwritten by `repoCreate`. -/
def buildCreateRow (req : CreateVendorRequest) : Vendor :=
  { id := ""
    entityID := req.entityID
    vendorCode := strUpper req.vendorCode
    vendorName := req.vendorName
    legalName := req.legalName
    vendorType := strLower req.vendorType
    status := "pending_approval"
    taxID := req.taxID
    isTaxExempt := req.isTaxExempt
    is1099Vendor := req.is1099Vendor
    email := req.email
    phone := req.phone
    fax := req.fax
    website := req.website
    addressLine1 := req.addressLine1
    addressLine2 := req.addressLine2
    city := req.city
    stateProvince := req.stateProvince
    postalCode := req.postalCode
    country := strUpper req.country
    paymentTerms := req.paymentTerms
    paymentMethod := req.paymentMethod
    currency := strUpper req.currency
    creditLimit := req.creditLimit
    currentBalance := 0
    bankName := req.bankName
    bankAccountNumber := req.bankAccountNumber
    bankRoutingNumber := req.bankRoutingNumber
    swiftCode := req.swiftCode
    iban := req.iban
    notes := req.notes
    tags := req.tags
    createdBy := some req.createdBy
    createdAt := 0
    updatedBy := none
    updatedAt := 0 }

/-- Go `VendorService.CreateVendor`: pre-check uniqueness with `GetByCode` on
the raw (un-normalized) request code, validate vendor type, currency
length, credit limit sign and country length in that order, then build
the normalized row and insert it through `VendorRepository.Create`. -/
def createVendor (s : Store) (req : CreateVendorRequest) : Except Err (Vendor × Store) :=
  match getByCode s req.vendorCode req.entityID with
  | some _ => .error (errAlreadyExists "vendor" req.vendorCode)
  | none =>
    if !(validVendorTypes.contains (strLower req.vendorType)) then
      .error (errInvalidInput "vendor_type" "invalid vendor type")
    else if req.currency.length != 3 then
      .error (errInvalidInput "currency" "currency must be 3-letter ISO code")
    else if (match req.creditLimit with | some l => decide (l < 0) | none => false) then
      .error (errInvalidInput "credit_limit" "credit limit cannot be negative")
    else if req.country.length != 2 then
      .error (errInvalidInput "country" "country must be 2-letter ISO code")
    else
      repoCreate s (buildCreateRow req)

/-- The field-by-field overwrite `VendorService.UpdateVendor` performs on
the fetched vendor: every request field is copied over (code, country,
currency upper-cased; type and status lower-cased), while `id`,
`entityID`, `currentBalance`, `createdBy` and `createdAt` are left as
fetched — the request has no balance field to copy. -/
def applyUpdate (vendor : Vendor) (req : UpdateVendorRequest) : Vendor :=
  { vendor with
    vendorCode := strUpper req.vendorCode
    vendorName := req.vendorName
    legalName := req.legalName
    vendorType := strLower req.vendorType
    status := strLower req.status
    taxID := req.taxID
    isTaxExempt := req.isTaxExempt
    is1099Vendor := req.is1099Vendor
    email := req.email
    phone := req.phone
    fax := req.fax
    website := req.website
    addressLine1 := req.addressLine1
    addressLine2 := req.addressLine2
    city := req.city
    stateProvince := req.stateProvince
    postalCode := req.postalCode
    country := strUpper req.country
    paymentTerms := req.paymentTerms
    paymentMethod := req.paymentMethod
    currency := strUpper req.currency
    creditLimit := req.creditLimit
    bankName := req.bankName
    bankAccountNumber := req.bankAccountNumber
    bankRoutingNumber := req.bankRoutingNumber
    swiftCode := req.swiftCode
    iban := req.iban
    notes := req.notes
    tags := req.tags
    updatedBy := some req.updatedBy }

/-- Go `VendorService.UpdateVendor`: fetch by `(id, entity_id)`, re-check
code uniqueness only when the (raw) request code differs from the stored
one, validate type, status and credit limit, overwrite every mutable
field and persist through `VendorRepository.Update`. -/
def updateVendor (s : Store) (req : UpdateVendorRequest) : Except Err (Vendor × Store) :=
  match getByID s req.id req.entityID with
  | none => .error (errNotFound "vendor" req.id)
  | some vendor =>
    if req.vendorCode != vendor.vendorCode &&
        (getByCode s req.vendorCode req.entityID).isSome then
      .error (errAlreadyExists "vendor" req.vendorCode)
    else if !(validVendorTypes.contains (strLower req.vendorType)) then
      .error (errInvalidInput "vendor_type" "invalid vendor type")
    else if !(["active", "inactive", "suspended", "pending_approval"].contains (strLower req.status)) then
      .error (errInvalidInput "status" "invalid vendor status")
    else if (match req.creditLimit with | some l => decide (l < 0) | none => false) then
      .error (errInvalidInput "credit_limit" "credit limit cannot be negative")
    else
      repoUpdate s (applyUpdate vendor req)

/-- Go `VendorService.DeleteVendor`: the invoice guard is a TODO no-op; the
call goes straight to `VendorRepository.Delete`. -/
def deleteVendor (s : Store) (id entityID : String) : Except Err Store :=
  repoDelete s id entityID

/-- Ordering used by `ORDER BY vendor_name` in `VendorRepository.List`. -/
def VendorNameR (a b : Vendor) : Prop := (decide (a.vendorName ≤ b.vendorName)) = true

instance : DecidableRel VendorNameR := fun a b => by
  unfold VendorNameR; infer_instance

/-- Go `VendorRepository.List`: `WHERE entity_id = $1`, then `AND status = $n`
when a status filter is given, then `AND vendor_type = $n` when a type
filter is given, then `AND status = 'active'` when `activeOnly` — the
clauses are conjoined, each appended to the same WHERE list — followed by
`ORDER BY vendor_name LIMIT $n OFFSET $n+1`, with the count taken over the
same filters without the limit. -/
def optFilter (key : Vendor → String) (filt : Option String) (l : List Vendor) : List Vendor :=
  match filt with
  | some x => l.filter (fun v => key v == x)
  | none => l

/-- The WHERE clause built by `VendorRepository.List`: `entity_id = $1`,
then the optional `status` clause, then the optional `vendor_type`
clause, then — when `activeOnly` — one more `status = 'active'` clause,
all conjoined. -/
def listFilter (s : Store) (entityID : String) (status vendorType : Option String)
    (activeOnly : Bool) : List Vendor :=
  let f0 : List Vendor := s.vendors.filter (fun v => v.entityID == entityID)
  let f2 : List Vendor := optFilter (fun v => v.vendorType) vendorType
    (optFilter (fun v => v.status) status f0)
  if activeOnly then f2.filter (fun v => v.status == "active") else f2

def listVendors (s : Store) (entityID : String) (status vendorType : Option String)
    (activeOnly : Bool) (limit offset : Nat) : List Vendor × Nat :=
  ((((listFilter s entityID status vendorType activeOnly).insertionSort
      VendorNameR).drop offset).take limit,
   (listFilter s entityID status vendorType activeOnly).length)

/-- Modelled from the spec: the service-layer `UpdateBalance` delegation.
The service method called by both transport handlers is not present under
src/ (the service file there ends at `ValidateVendor`); per the spec
(§4.1) it forwards the signed delta to the store's additive update
without pre-validating it. -/
def serviceUpdateBalance (s : Store) (id entityID : String) (amount : Int) : Except Err Store :=
  updateBalance s id entityID amount

/-- Go `VendorService.ActivateVendor`: fetch, set status `active`, record the
actor as updater, persist through `VendorRepository.Update`. -/
def activateVendor (s : Store) (id entityID updatedBy : String) : Except Err Store :=
  match getByID s id entityID with
  | none => .error (errNotFound "vendor" id)
  | some vendor =>
    match repoUpdate s { vendor with status := "active", updatedBy := some updatedBy } with
    | .error e => .error e
    | .ok (_, s') => .ok s'

/-- Go `VendorService.DeactivateVendor`: fetch, set status `inactive`, record
the actor as updater, persist; the pending-invoice guard is a TODO no-op. -/
def deactivateVendor (s : Store) (id entityID updatedBy : String) : Except Err Store :=
  match getByID s id entityID with
  | none => .error (errNotFound "vendor" id)
  | some vendor =>
    match repoUpdate s { vendor with status := "inactive", updatedBy := some updatedBy } with
    | .error e => .error e
    | .ok (_, s') => .ok s'

-- ---------------------------------------------------------------------------
-- gRPC transport adapter (`internal/handler/grpc_handler.go`)
-- ---------------------------------------------------------------------------

/-- The authenticated caller identity injected by the auth collaborator
(`auth.GetUserContext`). -/
structure UserContext where
  userID : String
  entityID : String
deriving DecidableEq, Repr

/-- gRPC status codes used by the handler. -/
inductive GrpcCode
  | unauthenticated
  | permissionDenied
  | internal
deriving DecidableEq, Repr

/-- A gRPC error status: code and message. -/
structure GrpcErr where
  code : GrpcCode
  message : String
deriving DecidableEq, Repr

/-- Go `toGRPCError`: the TODO mapping — every domain error collapses to
`codes.Internal` carrying the error's message. -/
def toGRPCError (e : Err) : GrpcErr := ⟨.internal, e.message⟩

/-- Go `stringPtr`: proto3 empty string becomes a nil pointer. -/
def stringPtr (s : String) : Option String :=
  if s == "" then none else some s

/-- Go `int64Ptr`: a proto3 zero becomes a nil pointer, so a wire value of 0
reaches the domain layer as an absent field. -/
def int64Ptr (i : Int) : Option Int :=
  if i == 0 then none else some i

/-- The wire `pb.CreateVendorRequest`: proto3 scalar fields, no optionals. -/
structure PbCreateVendorRequest where
  entityId : String
  vendorCode : String
  vendorName : String
  legalName : String
  vendorType : String
  taxId : String
  isTaxExempt : Bool
  is1099Vendor : Bool
  email : String
  phone : String
  fax : String
  website : String
  addressLine1 : String
  addressLine2 : String
  city : String
  stateProvince : String
  postalCode : String
  country : String
  paymentTerms : String
  paymentMethod : String
  currency : String
  creditLimit : Int
  bankName : String
  bankAccountNumber : String
  bankRoutingNumber : String
  swiftCode : String
  iban : String
  notes : String
  tags : List String
deriving DecidableEq, Repr

/-- The wire `pb.UpdateVendorRequest`. -/
structure PbUpdateVendorRequest where
  id : String
  entityId : String
  vendorCode : String
  vendorName : String
  legalName : String
  vendorType : String
  status : String
  taxId : String
  isTaxExempt : Bool
  is1099Vendor : Bool
  email : String
  phone : String
  fax : String
  website : String
  addressLine1 : String
  addressLine2 : String
  city : String
  stateProvince : String
  postalCode : String
  country : String
  paymentTerms : String
  paymentMethod : String
  currency : String
  creditLimit : Int
  bankName : String
  bankAccountNumber : String
  bankRoutingNumber : String
  swiftCode : String
  iban : String
  notes : String
  tags : List String
deriving DecidableEq, Repr

/-- The service-layer request `GRPCHandler.CreateVendor` builds from the
wire request, using `stringPtr`/`int64Ptr` for optional fields and the
authenticated user as creator. -/
def pbToCreateRequest (userID : String) (req : PbCreateVendorRequest) : CreateVendorRequest :=
  { entityID := req.entityId
    vendorCode := req.vendorCode
    vendorName := req.vendorName
    legalName := stringPtr req.legalName
    vendorType := req.vendorType
    taxID := stringPtr req.taxId
    isTaxExempt := req.isTaxExempt
    is1099Vendor := req.is1099Vendor
    email := stringPtr req.email
    phone := stringPtr req.phone
    fax := stringPtr req.fax
    website := stringPtr req.website
    addressLine1 := stringPtr req.addressLine1
    addressLine2 := stringPtr req.addressLine2
    city := stringPtr req.city
    stateProvince := stringPtr req.stateProvince
    postalCode := stringPtr req.postalCode
    country := req.country
    paymentTerms := req.paymentTerms
    paymentMethod := stringPtr req.paymentMethod
    currency := req.currency
    creditLimit := int64Ptr req.creditLimit
    bankName := stringPtr req.bankName
    bankAccountNumber := stringPtr req.bankAccountNumber
    bankRoutingNumber := stringPtr req.bankRoutingNumber
    swiftCode := stringPtr req.swiftCode
    iban := stringPtr req.iban
    notes := stringPtr req.notes
    tags := req.tags
    createdBy := userID }

/-- The service-layer request `GRPCHandler.UpdateVendor` builds from the
wire request. -/
def pbToUpdateRequest (userID : String) (req : PbUpdateVendorRequest) : UpdateVendorRequest :=
  { id := req.id
    entityID := req.entityId
    vendorCode := req.vendorCode
    vendorName := req.vendorName
    legalName := stringPtr req.legalName
    vendorType := req.vendorType
    status := req.status
    taxID := stringPtr req.taxId
    isTaxExempt := req.isTaxExempt
    is1099Vendor := req.is1099Vendor
    email := stringPtr req.email
    phone := stringPtr req.phone
    fax := stringPtr req.fax
    website := stringPtr req.website
    addressLine1 := stringPtr req.addressLine1
    addressLine2 := stringPtr req.addressLine2
    city := stringPtr req.city
    stateProvince := stringPtr req.stateProvince
    postalCode := stringPtr req.postalCode
    country := req.country
    paymentTerms := req.paymentTerms
    paymentMethod := stringPtr req.paymentMethod
    currency := req.currency
    creditLimit := int64Ptr req.creditLimit
    bankName := stringPtr req.bankName
    bankAccountNumber := stringPtr req.bankAccountNumber
    bankRoutingNumber := stringPtr req.bankRoutingNumber
    swiftCode := stringPtr req.swiftCode
    iban := stringPtr req.iban
    notes := stringPtr req.notes
    tags := req.tags
    updatedBy := userID }

/-- Go `GRPCHandler.CreateVendor`: require an authenticated user context,
reject an `entity_id` mismatch with `PermissionDenied` before touching
the service layer, then delegate and collapse domain errors through
`toGRPCError`. -/
def grpcCreateVendor (s : Store) (uctx : Option UserContext)
    (req : PbCreateVendorRequest) : Except GrpcErr (Vendor × Store) :=
  match uctx with
  | none => .error ⟨.unauthenticated, "authentication required"⟩
  | some u =>
    if req.entityId != u.entityID then
      .error ⟨.permissionDenied, "access denied: entity mismatch"⟩
    else
      match createVendor s (pbToCreateRequest u.userID req) with
      | .error e => .error (toGRPCError e)
      | .ok r => .ok r

/-- Go `GRPCHandler.UpdateVendor`: same authentication and entity-mismatch
gate as create, then delegate. -/
def grpcUpdateVendor (s : Store) (uctx : Option UserContext)
    (req : PbUpdateVendorRequest) : Except GrpcErr (Vendor × Store) :=
  match uctx with
  | none => .error ⟨.unauthenticated, "authentication required"⟩
  | some u =>
    if req.entityId != u.entityID then
      .error ⟨.permissionDenied, "access denied: entity mismatch"⟩
    else
      match updateVendor s (pbToUpdateRequest u.userID req) with
      | .error e => .error (toGRPCError e)
      | .ok r => .ok r

/-- Go `GRPCHandler.ActivateVendor`: authentication and entity-mismatch gate,
then delegate. -/
def grpcActivateVendor (s : Store) (uctx : Option UserContext)
    (id entityId : String) : Except GrpcErr Store :=
  match uctx with
  | none => .error ⟨.unauthenticated, "authentication required"⟩
  | some u =>
    if entityId != u.entityID then
      .error ⟨.permissionDenied, "access denied: entity mismatch"⟩
    else
      match activateVendor s id entityId u.userID with
      | .error e => .error (toGRPCError e)
      | .ok s' => .ok s'

/-- Go `GRPCHandler.DeactivateVendor`: authentication and entity-mismatch
gate, then delegate. -/
def grpcDeactivateVendor (s : Store) (uctx : Option UserContext)
    (id entityId : String) : Except GrpcErr Store :=
  match uctx with
  | none => .error ⟨.unauthenticated, "authentication required"⟩
  | some u =>
    if entityId != u.entityID then
      .error ⟨.permissionDenied, "access denied: entity mismatch"⟩
    else
      match deactivateVendor s id entityId u.userID with
      | .error e => .error (toGRPCError e)
      | .ok s' => .ok s'

/-- Go `GRPCHandler.DeleteVendor`: the handler never extracts the user
context and performs no entity-mismatch check — it logs and delegates
straight to `VendorService.DeleteVendor` with the request's own
`entity_id`. The caller identity argument is carried (it is inside the
request context) but unused, exactly as in the Go body. -/
def grpcDeleteVendor (s : Store) (_uctx : Option UserContext)
    (id entityId : String) : Except GrpcErr Store :=
  match deleteVendor s id entityId with
  | .error e => .error (toGRPCError e)
  | .ok s' => .ok s'

/-- Go `GRPCHandler.UpdateBalance`: like delete, no user-context extraction
and no entity-mismatch check before delegating. -/
def grpcUpdateBalance (s : Store) (_uctx : Option UserContext)
    (id entityId : String) (amount : Int) : Except GrpcErr Store :=
  match serviceUpdateBalance s id entityId amount with
  | .error e => .error (toGRPCError e)
  | .ok s' => .ok s'

-- ---------------------------------------------------------------------------
-- HTTP/REST transport adapter (`internal/handler/http_handler.go`)
-- ---------------------------------------------------------------------------

/-- Go `r.URL.Query().Get(key)`: first value for the key, empty string when
absent. -/
def queryGet (q : List (String × String)) (key : String) : String :=
  match q.find? (fun p => p.1 == key) with
  | some p => p.2
  | none => ""

/-- Go `HTTPHandler.CreateVendor` wire status: every service error is sent
with `http.StatusInternalServerError` (500); success writes 201. -/
def httpCreateVendorStatus (s : Store) (req : CreateVendorRequest) : Nat :=
  match createVendor s req with
  | .error _ => 500
  | .ok _ => 201

/-- Go `HTTPHandler.GetVendor` wire status: every service error is sent with
`http.StatusNotFound` (404); success writes 200. -/
def httpGetVendorStatus (s : Store) (id entityID : String) : Nat :=
  match getByID s id entityID with
  | none => 404
  | some _ => 200

/-- Go `HTTPHandler.GetVendorContacts`: reads only the `vendor_id` query
parameter — no entity scoping — requires it non-empty, and returns the
contact list for that vendor id. -/
def httpGetVendorContacts (s : Store) (q : List (String × String)) :
    Except (Nat × String) (List VendorContact) :=
  let vendorID := queryGet q "vendor_id"
  if vendorID == "" then
    .error (400, "Vendor ID is required")
  else
    .ok (getContacts s vendorID)

-- ---------------------------------------------------------------------------
-- Concrete rows, stores and requests used to exercise the embedding
-- ---------------------------------------------------------------------------

/-- A vendor row with the varying fields given and every optional field
empty; used to build concrete stores. -/
def mkVendor (id entityID code name vtype stat country currency : String)
    (climit : Option Int) (bal : Int) : Vendor :=
  { id := id
    entityID := entityID
    vendorCode := code
    vendorName := name
    legalName := none
    vendorType := vtype
    status := stat
    taxID := none
    isTaxExempt := false
    is1099Vendor := false
    email := none
    phone := none
    fax := none
    website := none
    addressLine1 := none
    addressLine2 := none
    city := none
    stateProvince := none
    postalCode := none
    country := country
    paymentTerms := "NET30"
    paymentMethod := none
    currency := currency
    creditLimit := climit
    currentBalance := bal
    bankName := none
    bankAccountNumber := none
    bankRoutingNumber := none
    swiftCode := none
    iban := none
    notes := none
    tags := []
    createdBy := none
    createdAt := 0
    updatedBy := none
    updatedAt := 0 }

/-- A create request with the varying fields given and every optional
field empty. -/
def mkCreateRequest (entityID code name vtype country currency : String)
    (climit : Option Int) : CreateVendorRequest :=
  { entityID := entityID
    vendorCode := code
    vendorName := name
    legalName := none
    vendorType := vtype
    taxID := none
    isTaxExempt := false
    is1099Vendor := false
    email := none
    phone := none
    fax := none
    website := none
    addressLine1 := none
    addressLine2 := none
    city := none
    stateProvince := none
    postalCode := none
    country := country
    paymentTerms := "NET30"
    paymentMethod := none
    currency := currency
    creditLimit := climit
    bankName := none
    bankAccountNumber := none
    bankRoutingNumber := none
    swiftCode := none
    iban := none
    notes := none
    tags := []
    createdBy := "u1" }

/-- An update request with the varying fields given and every optional
field empty. -/
def mkUpdateRequest (id entityID code name vtype stat country currency : String)
    (climit : Option Int) : UpdateVendorRequest :=
  { id := id
    entityID := entityID
    vendorCode := code
    vendorName := name
    legalName := none
    vendorType := vtype
    status := stat
    taxID := none
    isTaxExempt := false
    is1099Vendor := false
    email := none
    phone := none
    fax := none
    website := none
    addressLine1 := none
    addressLine2 := none
    city := none
    stateProvince := none
    postalCode := none
    country := country
    paymentTerms := "NET30"
    paymentMethod := none
    currency := currency
    creditLimit := climit
    bankName := none
    bankAccountNumber := none
    bankRoutingNumber := none
    swiftCode := none
    iban := none
    notes := none
    tags := []
    updatedBy := "u2" }

/-- An empty store whose next assigned id is 1 and whose clock reads 7. -/
def emptyStore : Store := { vendors := [], contacts := [], nextId := 1, now := 7 }

/-- An active vendor at its credit limit: limit 5000000, balance 5000000. -/
def vendorAtLimit : Vendor :=
  mkVendor "1" "E" "V001" "Acme" "supplier" "active" "US" "USD" (some 5000000) 5000000

/-- Store holding `vendorAtLimit`. -/
def storeAtLimit : Store := { vendors := [vendorAtLimit], contacts := [], nextId := 2, now := 9 }

/-- A create request whose code, country and currency are lower-case and
whose vendor type is capitalized, to exercise normalization. -/
def reqLower : CreateVendorRequest :=
  mkCreateRequest "E" "v001" "Acme" "Supplier" "us" "usd" (some 1000)

/-- The store after the first `createVendor emptyStore reqLower` call. -/
def storeAfterFirst : Store :=
  { vendors := [{ buildCreateRow reqLower with id := "1", createdAt := 7, updatedAt := 7 }]
    contacts := []
    nextId := 2
    now := 7 }

/-- Store holding one active vendor of entity `E`, used for the list
filter scenario. -/
def storeOneActive : Store :=
  { vendors := [mkVendor "1" "E" "V001" "Acme" "supplier" "active" "US" "USD" none 0]
    contacts := [], nextId := 2, now := 0 }

/-- An active vendor with balance 50 and no credit limit. -/
def vendorBal50 : Vendor :=
  mkVendor "1" "E" "V001" "Acme" "supplier" "active" "US" "USD" none 50

/-- Store holding `vendorBal50`. -/
def storeBalance50 : Store :=
  { vendors := [vendorBal50], contacts := [], nextId := 2, now := 3 }

/-- Store holding a vendor of entity `E2`, used for the cross-entity
delete/balance scenarios. -/
def storeOtherEntity : Store :=
  { vendors := [mkVendor "1" "E2" "V001" "Acme" "supplier" "active" "US" "USD" none 50]
    contacts := [], nextId := 2, now := 4 }

/-- A caller authenticated for entity `E1`. -/
def callerE1 : UserContext := { userID := "u9", entityID := "E1" }

/-- An update request against `storeBalance50`'s vendor that edits fields
and changes the code. -/
def updReq : UpdateVendorRequest :=
  mkUpdateRequest "1" "E" "v002" "Acme Corp" "Contractor" "Suspended" "de" "eur" (some 700)

/-- A contact of vendor `1`. -/
def contactC1 : VendorContact :=
  { id := "c1", vendorID := "1", contactType := "primary", firstName := "Jo",
    lastName := "Doe", title := none, email := none, phone := none, mobile := none,
    isPrimary := true, notes := none, createdAt := 0, updatedAt := 0 }

/-- Store holding vendor `1` under entity `E2` together with its contact. -/
def storeWithContact : Store :=
  { vendors := [mkVendor "1" "E2" "V001" "Acme" "supplier" "active" "US" "USD" none 0]
    contacts := [contactC1], nextId := 2, now := 0 }

/-- A wire create request with `credit_limit = 0`, entity `E1`. -/
def pbReqZeroLimit : PbCreateVendorRequest :=
  { entityId := "E1", vendorCode := "v003", vendorName := "Zed", legalName := "",
    vendorType := "supplier", taxId := "", isTaxExempt := false, is1099Vendor := false,
    email := "", phone := "", fax := "", website := "", addressLine1 := "",
    addressLine2 := "", city := "", stateProvince := "", postalCode := "",
    country := "us", paymentTerms := "NET30", paymentMethod := "", currency := "usd",
    creditLimit := 0, bankName := "", bankAccountNumber := "", bankRoutingNumber := "",
    swiftCode := "", iban := "", notes := "", tags := [] }

/-- A create request whose code `V001` exactly equals the stored,
normalized code of `storeAfterFirst`'s vendor. -/
def reqUpper : CreateVendorRequest :=
  mkCreateRequest "E" "V001" "Acme" "supplier" "us" "usd" none

/-- The vendor created over gRPC from `pbReqZeroLimit` in the empty
store. -/
def vendorZeroLimit : Vendor :=
  { buildCreateRow (pbToCreateRequest "u9" pbReqZeroLimit) with
    id := "1", createdAt := 7, updatedAt := 7 }

/-- The store after the gRPC create of `pbReqZeroLimit`. -/
def storeZeroLimit : Store :=
  { vendors := [vendorZeroLimit], contacts := [], nextId := 2, now := 7 }

/-- The vendor row produced by applying `updReq` to `vendorBal50` and
persisting it (store clock 3). -/
def updatedVendorDemo : Vendor :=
  { applyUpdate vendorBal50 updReq with updatedAt := 3 }

/-- The store after `updateVendor storeBalance50 updReq`. -/
def storeAfterUpdate : Store :=
  { storeBalance50 with vendors := [updatedVendorDemo] }

-- ---------------------------------------------------------------------------
-- Helper lemmas
-- ---------------------------------------------------------------------------

theorem find?_updateWhere (p : Vendor → Bool) (f : Vendor → Vendor) :
    ∀ (l : List Vendor) (w : Vendor), l.find? p = some w → p (f w) = true →
      (updateWhere p f l).find? p = some (f w) := by
  intro l
  induction l with
  | nil => intro w hw _; simp [List.find?] at hw
  | cons a t ih =>
    intro w hw hf
    by_cases hp : p a
    · rw [List.find?_cons_of_pos _ hp] at hw
      injection hw with hw
      subst hw
      simp only [updateWhere, List.map_cons, hp, if_true]
      exact List.find?_cons_of_pos _ hf
    · rw [List.find?_cons_of_neg _ hp] at hw
      simp only [updateWhere, List.map_cons]
      rw [if_neg hp, List.find?_cons_of_neg _ hp]
      exact ih w hw hf

theorem repoCreate_ok (s : Store) (w v : Vendor) (s' : Store)
    (h : repoCreate s w = .ok (v, s')) :
    v = { w with id := toString s.nextId, createdAt := s.now, updatedAt := s.now } ∧
    s' = { s with vendors := s.vendors ++ [v], nextId := s.nextId + 1 } := by
  unfold repoCreate at h
  split at h
  · exact absurd h (by simp)
  · simp only [Except.ok.injEq, Prod.mk.injEq] at h
    obtain ⟨h1, h2⟩ := h
    subst h1
    subst h2
    exact ⟨rfl, rfl⟩

theorem repoUpdate_ok (s : Store) (u v : Vendor) (s' : Store)
    (h : repoUpdate s u = .ok (v, s')) :
    v = { u with updatedAt := s.now } ∧
    s' = { s with vendors := updateWhere (matchesId u.id u.entityID) (fun _ => v) s.vendors } := by
  unfold repoUpdate at h
  split at h
  · split at h
    · exact absurd h (by simp)
    · simp only [Except.ok.injEq, Prod.mk.injEq] at h
      obtain ⟨h1, h2⟩ := h
      subst h1
      subst h2
      exact ⟨rfl, rfl⟩
  · exact absurd h (by simp)

theorem createVendor_ok (s : Store) (req : CreateVendorRequest)
    (v : Vendor) (s' : Store) (h : createVendor s req = .ok (v, s')) :
    v = { buildCreateRow req with id := toString s.nextId, createdAt := s.now, updatedAt := s.now } ∧
    s' = { s with vendors := s.vendors ++ [v], nextId := s.nextId + 1 } := by
  unfold createVendor at h
  cases hg : getByCode s req.vendorCode req.entityID with
  | some w => rw [hg] at h; simp at h
  | none =>
    rw [hg] at h
    split at h
    · simp at h
    · split at h
      · simp at h
      · split at h
        · simp at h
        · split at h
          · simp at h
          · split at h
            · simp at h
            · exact repoCreate_ok _ _ _ _ h

theorem filter_filter_nil {α : Type} (p q : α → Bool)
    (h : ∀ a, p a = true → q a = true → False) (l : List α) :
    (l.filter p).filter q = [] := by
  rw [List.eq_nil_iff_forall_not_mem]
  intro a ha
  rw [List.mem_filter] at ha
  rw [List.mem_filter] at ha
  exact h a ha.1.2 ha.2

-- ---------------------------------------------------------------------------
-- Claim theorems
-- ---------------------------------------------------------------------------

/-- C1: for every stored vendor, `ValidateVendor(id, entity_id)` returns
valid=true iff the vendor's status is `active` and (its credit limit is
absent or `current_balance < credit_limit`); a non-active vendor yields
`(false, "vendor status is '<status>', must be active")`, and an active
vendor whose set credit limit is reached (equality included) yields
`(false, "vendor has exceeded credit limit: balance=<b>, limit=<l>")`
with the stored balance and limit interpolated. -/
theorem C1_validateVendor (s : Store) (id eid : String) (v : Vendor)
    (h : getByID s id eid = some v) :
    ((validateVendor s id eid).1 = true ↔
      (v.status = "active" ∧
        (v.creditLimit = none ∨ ∃ l, v.creditLimit = some l ∧ v.currentBalance < l)))
    ∧ (v.status ≠ "active" → validateVendor s id eid = (false, statusMessage v.status))
    ∧ (∀ l, v.status = "active" → v.creditLimit = some l → l ≤ v.currentBalance →
        validateVendor s id eid = (false, creditMessage v.currentBalance l)) := by
  refine ⟨?_, ?_, ?_⟩
  · simp only [validateVendor, h]
    by_cases hs : v.status = "active"
    · cases hcl : v.creditLimit with
      | none => simp [hs, hcl]
      | some l =>
        by_cases hle : l ≤ v.currentBalance
        · simp only [hs, bne_self_eq_false, Bool.false_eq_true, if_false, hcl, hle,
            if_true, decide_eq_true_eq]
          simp [hcl, hs]
          omega
        · simp only [hs, bne_self_eq_false, Bool.false_eq_true, if_false, hcl]
          simp [hle, hcl, hs]
          omega
    · have hb : (v.status != "active") = true := by
        simp [bne_iff_ne, hs]
      simp [hb, hs]
  · intro hs
    have hb : (v.status != "active") = true := by simp [bne_iff_ne, hs]
    simp [validateVendor, h, hb]
  · intro l hs hcl hle
    have hb : (v.status != "active") = false := by simp [bne_iff_ne, hs]
    simp [validateVendor, h, hb, hcl, hle]

/-- C1 witness: the vendor at its credit limit (balance 5000000, limit
5000000) is rejected with the interpolated message. -/
theorem C1_witness :
    getByID storeAtLimit "1" "E" = some vendorAtLimit ∧
    validateVendor storeAtLimit "1" "E" =
      (false, "vendor has exceeded credit limit: balance=5000000, limit=5000000") := by
  refine ⟨by rfl, ?_⟩
  have h := (C1_validateVendor storeAtLimit "1" "E" vendorAtLimit (by rfl)).2.2
    5000000 (by rfl) (by rfl) (by decide)
  rw [h]
  decide

/-- C2: every `CreateVendor` request that passes validation yields a
vendor whose code, country and currency are the upper-cased request
values, whose type is the lower-cased request value, whose status is
`pending_approval` regardless of caller input (the create request has no
status field at all), and whose balance is 0; the record is persisted. -/
theorem C2_createVendor_normalizes (s : Store) (req : CreateVendorRequest)
    (v : Vendor) (s' : Store) (h : createVendor s req = .ok (v, s')) :
    v.vendorCode = strUpper req.vendorCode ∧ v.country = strUpper req.country ∧
    v.currency = strUpper req.currency ∧ v.vendorType = strLower req.vendorType ∧
    v.status = "pending_approval" ∧ v.currentBalance = 0 ∧ v ∈ s'.vendors := by
  obtain ⟨hv, hs⟩ := createVendor_ok s req v s' h
  refine ⟨by rw [hv]; rfl, by rw [hv]; rfl, by rw [hv]; rfl, by rw [hv]; rfl,
    by rw [hv]; rfl, by rw [hv]; rfl, ?_⟩
  rw [hs]
  simp

/-- C2 witness: creating from the lower-case request in the empty store
yields the normalized, persisted record. -/
theorem C2_witness :
    ({ buildCreateRow reqLower with id := "1", createdAt := 7, updatedAt := 7 } :
        Vendor).vendorCode = strUpper reqLower.vendorCode ∧
    ({ buildCreateRow reqLower with id := "1", createdAt := 7, updatedAt := 7 } :
        Vendor).status = "pending_approval" := by
  have h := C2_createVendor_normalizes emptyStore reqLower
    { buildCreateRow reqLower with id := "1", createdAt := 7, updatedAt := 7 }
    storeAfterFirst (by rfl)
  exact ⟨h.1, h.2.2.2.2.1⟩

/-- C3 counterexample: the first create of code `v001` stores `V001`; the
second call with the same raw code `v001` slips past the pre-check (which
compares the raw code case-sensitively against the stored normalized
code), hits the store's uniqueness violation, and surfaces as an
Internal-wrapped store error — not as AlreadyExists, contrary to the
claim. -/
theorem C3_counterexample :
    createVendor emptyStore reqLower =
      .ok ({ buildCreateRow reqLower with id := "1", createdAt := 7, updatedAt := 7 },
        storeAfterFirst) ∧
    createVendor storeAfterFirst reqLower = .error (errWrapInternal "failed to create vendor") ∧
    (errWrapInternal "failed to create vendor").code ≠ ErrCode.alreadyExists := by
  exact ⟨by rfl, by rfl, by decide⟩

/-- C3 (amended): a second create colliding on `(entity_id, vendor_code)`
always fails, but the error kind differs by path — `AlreadyExists` only
when the pre-check's case-sensitive lookup of the raw request code finds
the stored row; when the collision is caught by the store's uniqueness
constraint instead, the error surfaced is the Internal-wrapped store
error, not AlreadyExists. -/
theorem C3_amended (s : Store) (req : CreateVendorRequest) :
    (∀ w, getByCode s req.vendorCode req.entityID = some w →
      createVendor s req = .error (errAlreadyExists "vendor" req.vendorCode))
    ∧ (getByCode s req.vendorCode req.entityID = none →
       validVendorTypes.contains (strLower req.vendorType) = true →
       req.currency.length = 3 →
       (match req.creditLimit with | some l => decide (l < 0) | none => false) = false →
       req.country.length = 2 →
       insertViolatesUnique s (buildCreateRow req) = true →
       createVendor s req = .error (errWrapInternal "failed to create vendor")) := by
  constructor
  · intro w hw
    unfold createVendor
    rw [hw]
  · intro hn h1 h2 h3 h4 h5
    unfold createVendor
    rw [hn]
    rw [if_neg (by rw [h1]; simp), if_neg (by rw [h2]; simp), if_neg (by rw [h3]; simp),
      if_neg (by rw [h4]; simp)]
    unfold repoCreate
    rw [if_pos (by simp [h5])]

/-- C3 witness: at the concrete store holding normalized code `V001`, a
request with raw code `V001` fails through the AlreadyExists pre-check
path, and a request with raw code `v001` fails through the store
uniqueness path with the Internal-wrapped error. -/
theorem C3_witness :
    createVendor storeAfterFirst reqUpper = .error (errAlreadyExists "vendor" "V001") ∧
    createVendor storeAfterFirst reqLower = .error (errWrapInternal "failed to create vendor") := by
  constructor
  · exact (C3_amended storeAfterFirst reqUpper).1
      { buildCreateRow reqLower with id := "1", createdAt := 7, updatedAt := 7 } (by rfl)
  · exact (C3_amended storeAfterFirst reqLower).2 (by rfl) (by decide) (by decide)
      (by decide) (by decide) (by rfl)

/-- C4 counterexample: with `status="suspended"` and `active_only=true`
both supplied, the two status clauses are conjoined, so the listing over
a store whose entity `E` has exactly one active vendor returns the empty
page — not that active vendor, contrary to the claim that the result is
exactly the entity's active vendors. -/
theorem C4_counterexample :
    listVendors storeOneActive "E" (some "suspended") none true 50 0 = ([], 0) ∧
    storeOneActive.vendors.filter (fun v => v.entityID == "E" && v.status == "active") =
      [mkVendor "1" "E" "V001" "Acme" "supplier" "active" "US" "USD" none 0] := by
  exact ⟨by rfl, by rfl⟩

/-- C4 (amended): the status filter and `active_only` are conjoined, not
overridden: when both are supplied the result holds exactly the vendors
matching the given status AND `active` — the empty page whenever the
supplied status differs from `active`, and exactly the `active_only`
result when it equals `active`. -/
theorem C4_amended (s : Store) (eid st : String) (vt : Option String)
    (limit offset : Nat) :
    (st ≠ "active" → listVendors s eid (some st) vt true limit offset = ([], 0))
    ∧ listVendors s eid (some "active") vt true limit offset =
        listVendors s eid none vt true limit offset := by
  constructor
  · intro hst
    have hnil : listFilter s eid (some st) vt true = [] := by
      unfold listFilter optFilter
      cases vt with
      | none =>
        simp only [if_true]
        rw [List.eq_nil_iff_forall_not_mem]
        intro a ha
        rw [List.mem_filter, List.mem_filter] at ha
        have h1 : a.status = st := by
          have := ha.1.2
          simpa using this
        have h2 : a.status = "active" := by
          have := ha.2
          simpa using this
        exact hst (h1 ▸ h2)
      | some t =>
        simp only [if_true]
        rw [List.eq_nil_iff_forall_not_mem]
        intro a ha
        rw [List.mem_filter, List.mem_filter, List.mem_filter] at ha
        have h1 : a.status = st := by
          have := ha.1.1.2
          simpa using this
        have h2 : a.status = "active" := by
          have := ha.2
          simpa using this
        exact hst (h1 ▸ h2)
    unfold listVendors
    rw [hnil]
    simp
  · have hf : listFilter s eid (some "active") vt true = listFilter s eid none vt true := by
      unfold listFilter optFilter
      cases vt with
      | none =>
        simp only [if_true, List.filter_filter]
        apply List.filter_congr
        intro a _
        cases h : (a.status == "active") <;> simp [h]
      | some t =>
        simp only [if_true, List.filter_filter]
        apply List.filter_congr
        intro a _
        cases h : (a.status == "active") <;> cases h2 : (a.vendorType == t) <;> simp [h, h2]
    unfold listVendors
    rw [hf]

/-- C4 witness: with status `suspended` and `active_only` both supplied
the concrete one-active-vendor store yields the empty page, and with
status `active` the listing coincides with the `active_only`-only
listing. -/
theorem C4_witness :
    listVendors storeOneActive "E" (some "suspended") none true 50 0 = ([], 0) ∧
    listVendors storeOneActive "E" (some "active") none true 50 0 =
      listVendors storeOneActive "E" none none true 50 0 := by
  exact ⟨(C4_amended storeOneActive "E" "suspended" none 50 0).1 (by decide),
    (C4_amended storeOneActive "E" "active" none 50 0).2⟩

/-- C5: `UpdateBalance` adds the signed delta in a single store statement
without pre-validating it: for every stored vendor, a delta that would
drive the balance negative fails with the store-constraint error wrapped
as internal (the statement leaves the store unchanged — the failing
`Except` carries no new store), while any delta keeping the balance
non-negative succeeds and the stored balance becomes exactly the old
balance plus the delta (no clamping). -/
theorem C5_updateBalance (s : Store) (id eid : String) (amt : Int) (v : Vendor)
    (hv : getByID s id eid = some v) :
    (v.currentBalance + amt < 0 →
      updateBalance s id eid amt = .error (errWrapInternal "failed to update vendor balance"))
    ∧ (0 ≤ v.currentBalance + amt → (updateBalance s id eid amt).isOk = true)
    ∧ (∀ s', updateBalance s id eid amt = .ok s' →
        getByID s' id eid = some
          { v with currentBalance := v.currentBalance + amt, updatedAt := s.now }) := by
  refine ⟨?_, ?_, ?_⟩
  · intro hneg
    simp only [updateBalance, hv]
    rw [if_pos hneg]
  · intro hpos
    simp only [updateBalance, hv]
    rw [if_neg (by omega)]
    rfl
  · intro s' h
    simp only [updateBalance, hv] at h
    split at h
    · exact absurd h (by simp)
    · simp only [Except.ok.injEq] at h
      subst h
      have hpv : matchesId id eid v = true := List.find?_some hv
      unfold getByID
      exact find?_updateWhere (matchesId id eid) _ s.vendors v hv (by simpa [matchesId] using hpv)

/-- C5 witness: on the vendor with balance 50, a delta of -100 fails with
the wrapped store-constraint error, a delta of -30 succeeds, and the
stored balance after -30 is exactly 20. -/
theorem C5_witness :
    updateBalance storeBalance50 "1" "E" (-100) =
      .error (errWrapInternal "failed to update vendor balance") ∧
    (updateBalance storeBalance50 "1" "E" (-30)).isOk = true ∧
    getByID { storeBalance50 with vendors :=
        [{ vendorBal50 with currentBalance := 20, updatedAt := 3 }] } "1" "E" =
      some { vendorBal50 with currentBalance := 20, updatedAt := 3 } := by
  refine ⟨?_, ?_, ?_⟩
  · exact (C5_updateBalance storeBalance50 "1" "E" (-100) vendorBal50 (by rfl)).1 (by decide)
  · exact (C5_updateBalance storeBalance50 "1" "E" (-30) vendorBal50 (by rfl)).2.1 (by decide)
  · have h := (C5_updateBalance storeBalance50 "1" "E" (-30) vendorBal50 (by rfl)).2.2
      { storeBalance50 with vendors := [{ vendorBal50 with currentBalance := 20, updatedAt := 3 }] }
      (by rfl)
    exact h

/-- C6: every successful `UpdateVendor` leaves `current_balance` exactly
as fetched — the update request carries no balance field and the write
never touches that column — while every other mutable field is
overwritten from the request (normalized where applicable) and the
written row is what the store then holds. -/
theorem C6_update_preserves_balance (s : Store) (req : UpdateVendorRequest)
    (v : Vendor) (s' : Store) (w : Vendor)
    (h : updateVendor s req = .ok (v, s'))
    (hw : getByID s req.id req.entityID = some w) :
    v.currentBalance = w.currentBalance ∧
    getByID s' req.id req.entityID = some v ∧
    v.vendorCode = strUpper req.vendorCode ∧
    v.vendorName = req.vendorName ∧
    v.vendorType = strLower req.vendorType ∧
    v.status = strLower req.status ∧
    v.country = strUpper req.country ∧
    v.currency = strUpper req.currency ∧
    v.creditLimit = req.creditLimit ∧
    v.updatedBy = some req.updatedBy ∧
    v.createdAt = w.createdAt ∧
    v.createdBy = w.createdBy := by
  simp only [updateVendor, hw] at h
  split at h
  · exact absurd h (by simp)
  · split at h
    · exact absurd h (by simp)
    · split at h
      · exact absurd h (by simp)
      · split at h
        · exact absurd h (by simp)
        · obtain ⟨hv, hs⟩ := repoUpdate_ok _ _ _ _ h
          have hpw : matchesId req.id req.entityID w = true := List.find?_some hw
          have hid : w.id = req.id ∧ w.entityID = req.entityID := by
            simpa [matchesId] using hpw
          refine ⟨by rw [hv]; rfl, ?_, by rw [hv]; rfl, by rw [hv]; rfl, by rw [hv]; rfl,
            by rw [hv]; rfl, by rw [hv]; rfl, by rw [hv]; rfl, by rw [hv]; rfl,
            by rw [hv]; rfl, by rw [hv]; rfl, by rw [hv]; rfl⟩
          rw [hs]
          unfold getByID
          have hpred : matchesId (applyUpdate w req).id (applyUpdate w req).entityID =
              matchesId req.id req.entityID := by
            show matchesId w.id w.entityID = matchesId req.id req.entityID
            rw [hid.1, hid.2]
          rw [hpred]
          exact find?_updateWhere (matchesId req.id req.entityID) _ s.vendors w hw
            (by rw [hv]; simp [matchesId, applyUpdate, hid.1, hid.2])

/-- C6 witness: updating the balance-50 vendor with a request that edits
name, code, type, status, country, currency and credit limit leaves the
stored balance at 50, with every other field taken from the request. -/
theorem C6_witness :
    updatedVendorDemo.currentBalance = vendorBal50.currentBalance ∧
    getByID storeAfterUpdate "1" "E" = some updatedVendorDemo ∧
    updatedVendorDemo.status = strLower updReq.status ∧
    updatedVendorDemo.vendorCode = strUpper updReq.vendorCode := by
  have h := C6_update_preserves_balance storeBalance50 updReq
    updatedVendorDemo storeAfterUpdate vendorBal50 (by rfl) (by rfl)
  exact ⟨h.1, h.2.1, h.2.2.2.2.2.1, h.2.2.1⟩

/-- C7: contrary to the claim that every mutating RPC rejects an
entity mismatch with PermissionDenied and leaves the store unchanged,
the gRPC DeleteVendor and UpdateBalance handlers perform no caller
entity check at all: a caller authenticated for entity `E1` deletes the
vendor of entity `E2` (the store is mutated and the call succeeds), and
likewise adjusts its balance — while ActivateVendor, which does carry
the check, rejects the same caller with PermissionDenied. -/
theorem C7_delete_balance_skip_entity_check :
    callerE1.entityID = "E1" ∧
    grpcDeleteVendor storeOtherEntity (some callerE1) "1" "E2" =
      .ok { storeOtherEntity with vendors := [] } ∧
    (grpcUpdateBalance storeOtherEntity (some callerE1) "1" "E2" 100).isOk = true ∧
    grpcActivateVendor storeOtherEntity (some callerE1) "1" "E2" =
      .error { code := GrpcCode.permissionDenied, message := "access denied: entity mismatch" } := by
  exact ⟨rfl, by rfl, by rfl, by rfl⟩

/-- C8 counterexample: the REST create handler sends
`http.StatusInternalServerError` for every service error: an
AlreadyExists collision is answered with 500, not the 409-equivalent
distinct status the claim attributes to the REST adapter. -/
theorem C8_counterexample :
    createVendor storeAfterFirst reqUpper = .error (errAlreadyExists "vendor" "V001") ∧
    httpCreateVendorStatus storeAfterFirst reqUpper = 500 := by
  exact ⟨by rfl, by rfl⟩

/-- C8 (amended): neither transport adapter maps error kinds to distinct
wire statuses — the REST adapter fixes one status per endpoint (500 for
create regardless of error kind, 404 for get-by-id regardless of error
kind, 200 on success), and the RPC adapter collapses every domain error
to the single Internal status code. -/
theorem C8_amended :
    (∀ s req e, createVendor s req = .error e → httpCreateVendorStatus s req = 500) ∧
    (∀ s id eid, getByID s id eid = none → httpGetVendorStatus s id eid = 404) ∧
    (∀ s id eid v, getByID s id eid = some v → httpGetVendorStatus s id eid = 200) ∧
    (∀ e, toGRPCError e = { code := GrpcCode.internal, message := e.message }) := by
  refine ⟨?_, ?_, ?_, ?_⟩
  · intro s req e h
    simp only [httpCreateVendorStatus, h]
  · intro s id eid h
    simp only [httpGetVendorStatus, h]
  · intro s id eid v h
    simp only [httpGetVendorStatus, h]
  · intro e
    rfl

/-- C8 witness: the concrete AlreadyExists collision is answered with
500 by the REST create handler, and a concrete missing id with 404 by
the REST get handler. -/
theorem C8_witness :
    httpCreateVendorStatus storeAfterFirst reqUpper = 500 ∧
    httpGetVendorStatus emptyStore "1" "E" = 404 := by
  exact ⟨C8_amended.1 storeAfterFirst reqUpper (errAlreadyExists "vendor" "V001") (by rfl),
    C8_amended.2.1 emptyStore "1" "E" (by rfl)⟩

/-- C9: a wire `credit_limit` of 0 reaches the domain layer as an absent
(nil) credit limit through `int64Ptr` — for both the create and update
gRPC conversions — so a vendor created over gRPC with credit_limit 0
carries no credit limit at all, and `ValidateVendor` treats such an
active vendor as unlimited, returning `(true, "")` whatever its
balance. -/
theorem C9_zero_credit_limit_absent :
    (∀ u req, req.creditLimit = 0 → (pbToCreateRequest u req).creditLimit = none) ∧
    (∀ u req, req.creditLimit = 0 → (pbToUpdateRequest u req).creditLimit = none) ∧
    (∀ s uctx req v s', grpcCreateVendor s (some uctx) req = .ok (v, s') →
      req.creditLimit = 0 → v.creditLimit = none) ∧
    (∀ s id eid v, getByID s id eid = some v → v.status = "active" → v.creditLimit = none →
      validateVendor s id eid = (true, "")) := by
  refine ⟨?_, ?_, ?_, ?_⟩
  · intro u req h
    simp [pbToCreateRequest, int64Ptr, h]
  · intro u req h
    simp [pbToUpdateRequest, int64Ptr, h]
  · intro s uctx req v s' h hz
    simp only [grpcCreateVendor] at h
    split at h
    · exact absurd h (by simp)
    · cases hc : createVendor s (pbToCreateRequest uctx.userID req) with
      | error e => rw [hc] at h; exact absurd h (by simp)
      | ok r =>
        rw [hc] at h
        simp only [Except.ok.injEq] at h
        subst h
        obtain ⟨hv, _⟩ := createVendor_ok _ _ _ _ hc
        rw [hv]
        show (buildCreateRow (pbToCreateRequest uctx.userID req)).creditLimit = none
        simp [buildCreateRow, pbToCreateRequest, int64Ptr, hz]
  · intro s id eid v hsome hstat hcl
    simp [validateVendor, hsome, hstat, hcl]

/-- C9 witness: the concrete gRPC create with `credit_limit = 0` yields a
vendor with no credit limit, and the concrete active no-limit vendor
validates as `(true, "")`. -/
theorem C9_witness :
    vendorZeroLimit.creditLimit = none ∧
    validateVendor storeBalance50 "1" "E" = (true, "") := by
  constructor
  · exact C9_zero_credit_limit_absent.2.2.1 emptyStore callerE1 pbReqZeroLimit
      vendorZeroLimit storeZeroLimit (by rfl) (by rfl)
  · exact C9_zero_credit_limit_absent.2.2.2 storeBalance50 "1" "E" vendorBal50
      (by rfl) (by rfl) (by rfl)

/-- C10: `GetVendorContacts` is keyed by `vendor_id` alone and carries no
entity scoping: the handler's answer depends only on the `vendor_id`
query value (any `entity_id` or other parameter is ignored), is
insensitive to the vendors table entirely (so to whichever tenant the
vendor belongs), and every stored contact of any vendor is retrievable
by whoever supplies that vendor's id. -/
theorem C10_contacts_not_entity_scoped :
    (∀ s q1 q2, queryGet q1 "vendor_id" = queryGet q2 "vendor_id" →
      httpGetVendorContacts s q1 = httpGetVendorContacts s q2) ∧
    (∀ s s' vid, s.contacts = s'.contacts → getContacts s vid = getContacts s' vid) ∧
    (∀ s c, c ∈ s.contacts → c.vendorID ≠ "" →
      httpGetVendorContacts s [("vendor_id", c.vendorID)] = .ok (getContacts s c.vendorID) ∧
      c ∈ getContacts s c.vendorID) := by
  refine ⟨?_, ?_, ?_⟩
  · intro s q1 q2 hq
    simp only [httpGetVendorContacts, hq]
  · intro s s' vid h
    simp only [getContacts, h]
  · intro s c hc hne
    constructor
    · simp only [httpGetVendorContacts]
      have hq : queryGet [("vendor_id", c.vendorID)] "vendor_id" = c.vendorID := rfl
      rw [hq, if_neg (by simp [hne])]
    · simp only [getContacts, List.mem_insertionSort, List.mem_filter]
      exact ⟨hc, by simp⟩

/-- C10 witness: two queries naming the same vendor id but different
entity ids get the same answer, and the concrete contact of the vendor
owned by entity `E2` is retrieved with no entity parameter at all. -/
theorem C10_witness :
    httpGetVendorContacts storeWithContact
        [("vendor_id", "1"), ("entity_id", "E1")] =
      httpGetVendorContacts storeWithContact
        [("vendor_id", "1"), ("entity_id", "E9")] ∧
    httpGetVendorContacts storeWithContact [("vendor_id", "1")] =
      .ok (getContacts storeWithContact "1") ∧
    contactC1 ∈ getContacts storeWithContact "1" := by
  refine ⟨?_, ?_, ?_⟩
  · exact C10_contacts_not_entity_scoped.1 storeWithContact
      [("vendor_id", "1"), ("entity_id", "E1")]
      [("vendor_id", "1"), ("entity_id", "E9")] (by rfl)
  · exact (C10_contacts_not_entity_scoped.2.2 storeWithContact contactC1
      (by simp [storeWithContact]) (by decide)).1
  · exact (C10_contacts_not_entity_scoped.2.2 storeWithContact contactC1
      (by simp [storeWithContact]) (by decide)).2

end Vendors
